import Mathlib

/-!
Verification development for the instagram-scrapper repository (src/main.py).

The Python source is shallowly embedded: Python strings are modelled as
Lean `String` values manipulated through their codepoint lists (matching
Python's codepoint semantics), floats as `ℚ`, datetimes as `Int` POSIX
seconds, and the network / filesystem environment of `analyze_profile` as
explicit inputs (a stream of per-post fetch outcomes, enumeration event
lists, per-artifact write success flags).
-/

/-! Basic string utilities mirroring Python primitives -/

/-- Whether the first list is an initial segment of the second
(helper for the Python substring test). -/
def listPrefixOf : List Char → List Char → Bool
  | [], _ => true
  | _ :: _, [] => false
  | a :: as, b :: bs => a == b && listPrefixOf as bs

/-- Python `sub in s` substring containment, scanning every suffix. -/
def containsFrom (needle : List Char) : List Char → Bool
  | [] => needle.isEmpty
  | c :: cs => listPrefixOf needle (c :: cs) || containsFrom needle cs

/-- Python `sub in s` on strings. -/
def pyContains (s sub : String) : Bool := containsFrom sub.data s.data

/-- Python `s.lower()` (ASCII case mapping, as `Char.toLower`). -/
def pyLower (s : String) : String := String.mk (s.data.map Char.toLower)

/-- Python `len(s)` — number of codepoints. -/
def pyLen (s : String) : Nat := s.data.length

/-- Python `s[1:]` — drop the first codepoint. -/
def pyDrop1 (s : String) : String := String.mk (s.data.drop 1)

/-- Python `s.startswith("#")`. -/
def startsWithHash (s : String) : Bool :=
  match s.data with
  | '#' :: _ => true
  | _ => false

/-- Accumulator loop for Python `str.split()` (split on whitespace runs,
no empty tokens). -/
def pySplitAux : List Char → List Char → List String
  | [], acc => if acc.isEmpty then [] else [String.mk acc.reverse]
  | c :: cs, acc =>
    if c.isWhitespace then
      if acc.isEmpty then pySplitAux cs []
      else String.mk acc.reverse :: pySplitAux cs []
    else pySplitAux cs (c :: acc)

/-- Python `s.split()` with no argument. -/
def pySplit (s : String) : List String := pySplitAux s.data []

/-! Text extractors (src/main.py lines 139-157) -/

/-- Embedding of `extract_hashtags`: split the caption on whitespace, keep
tokens that begin with `#` and are longer than one character, strip the
leading `#` and lowercase. -/
def extract_hashtags (caption : String) : List String :=
  if caption = "" then []
  else
    (pySplit caption).filterMap fun w =>
      if startsWithHash w && decide (1 < pyLen w) then some (pyLower (pyDrop1 w)) else none

/-- Character class of the mention regex `@([A-Za-z0-9_.]+)`. -/
def mentionChar (c : Char) : Bool := c.isAlpha || c.isDigit || c == '_' || c == '.'

/-- Helper: dropping a matched run never lengthens a list. -/
lemma dropWhile_length_le {α : Type} (p : α → Bool) (l : List α) :
    (l.dropWhile p).length ≤ l.length := by
  induction l with
  | nil => simp [List.dropWhile]
  | cons a l ih =>
    by_cases h : p a = true
    · simp only [List.dropWhile_cons, h, if_true]
      exact Nat.le_succ_of_le ih
    · simp [List.dropWhile_cons, h]

/-- Scan for non-overlapping matches of `@([A-Za-z0-9_.]+)`, as
`re.findall` does. -/
def mentionScan : List Char → List String
  | [] => []
  | '@' :: rest =>
    if (rest.takeWhile mentionChar).isEmpty then mentionScan rest
    else String.mk (rest.takeWhile mentionChar) :: mentionScan (rest.dropWhile mentionChar)
  | _ :: rest => mentionScan rest
termination_by l => l.length
decreasing_by
  all_goals simp_wf
  all_goals first
    | exact Nat.lt_succ_self _
    | exact Nat.lt_succ_of_le (dropWhile_length_le _ _)

/-- Embedding of `extract_mentions_from_caption`. -/
def extract_mentions_from_caption (caption : String) : List String :=
  if caption = "" then []
  else (mentionScan caption.data).map pyLower

/-! Heuristic category / location inference (src/main.py lines 163-221) -/

/-- Result record of the category / location inference. -/
structure CategoryLocation where
  category : String
  location : String
deriving DecidableEq

/-- Category classification of `heuristic_category_location`: eight fixed
keyword buckets tried in source order, first match wins. -/
def categoryOf (text_lower : String) : String :=
  if ["poetry", "poet", "shayari", "urdu"].any (fun k => pyContains text_lower k) then
    "Poetry / Writing"
  else if ["fitness", "gym", "workout", "coach", "trainer"].any (fun k => pyContains text_lower k) then
    "Fitness"
  else if ["travel", "wanderlust", "trip", "tourism"].any (fun k => pyContains text_lower k) then
    "Travel"
  else if ["food", "chef", "recipe", "baking", "restaurant"].any (fun k => pyContains text_lower k) then
    "Food"
  else if ["fashion", "style", "outfit", "ootd", "makeup", "beauty"].any (fun k => pyContains text_lower k) then
    "Fashion / Beauty"
  else if ["developer", "coding", "programmer", "software", "tech"].any (fun k => pyContains text_lower k) then
    "Tech / Developer"
  else if ["photography", "photographer", "camera", "portrait"].any (fun k => pyContains text_lower k) then
    "Photography"
  else if ["music", "singer", "songwriter", "producer", "dj"].any (fun k => pyContains text_lower k) then
    "Music / Artist"
  else "Unknown (heuristic)"

/-- The `known_locations` table, in Python dict insertion order. -/
def known_locations : List (String × String) :=
  [("mumbai", "Mumbai, India"), ("bombay", "Mumbai, India"), ("pune", "Pune, India"),
   ("bangalore", "Bengaluru, India"), ("bengaluru", "Bengaluru, India"), ("delhi", "Delhi, India"),
   ("new delhi", "New Delhi, India"), ("hyderabad", "Hyderabad, India"), ("chennai", "Chennai, India"),
   ("kolkata", "Kolkata, India"), ("karachi", "Karachi, Pakistan"), ("lahore", "Lahore, Pakistan"),
   ("islamabad", "Islamabad, Pakistan"), ("dubai", "Dubai, UAE"), ("london", "London, UK"),
   ("new york", "New York, USA"), ("los angeles", "Los Angeles, USA"), ("toronto", "Toronto, Canada"),
   ("vancouver", "Vancouver, Canada"), ("sydney", "Sydney, Australia"), ("melbourne", "Melbourne, Australia"),
   ("paris", "Paris, France")]

/-- Location lookup of `heuristic_category_location`: first city key found
in the text, in table iteration order. -/
def locationOf (text_lower : String) : String :=
  match known_locations.find? (fun kv => pyContains text_lower kv.1) with
  | some kv => kv.2
  | none => "Unknown (heuristic)"

/-- Embedding of `heuristic_category_location`. -/
def heuristic_category_location (bio : String) (captions : List String) : CategoryLocation :=
  let text := bio ++ " " ++ String.intercalate " " captions
  let text_lower := pyLower text
  { category := categoryOf text_lower, location := locationOf text_lower }

example : heuristic_category_location "Mumbai based fitness coach" [] =
    { category := "Fitness", location := "Mumbai, India" } := by decide

example : extract_hashtags "Go #TeamA #TeamA run" = ["teama", "teama"] := by decide

/-! Backoff wrapper (src/main.py lines 52-83) -/

/-- Outcome of one attempt of a wrapped operation. -/
inductive Attempt (α : Type) where
  | ok (v : α)
  | fail (msg : String)
deriving DecidableEq

/-- Result of running a wrapped operation through `with_backoff`:
a value, a propagated exception message, or the Python `None`
fall-through when the loop body never ran (`max_retries = 0`). -/
inductive BackoffResult (α : Type) where
  | ok (v : α)
  | err (msg : String)
  | fellThrough
deriving DecidableEq

/-- The explicit temporary-block signal checked by the wrapper. -/
def block_message : String := "Please wait a few minutes before you try again"

/-- Whether an exception message indicates the temporary block. -/
def isBlockedMsg (msg : String) : Bool := pyContains msg block_message

/-- The retry loop of `with_backoff`, indexed by remaining attempts.
Returns the final result together with the list of sleep delays taken
before retries. -/
def backoffLoop {α : Type} (attempts : Nat → Attempt α) :
    Nat → Nat → ℚ → Option String → BackoffResult α × List ℚ
  | 0, _, _, lastError =>
    (match lastError with
     | some m => .err m
     | none => .fellThrough, [])
  | remaining + 1, attempt, delay, _ =>
    match attempts attempt with
    | .ok v => (.ok v, [])
    | .fail msg =>
      if isBlockedMsg msg then (.err msg, [])
      else if remaining = 0 then (.err msg, [])
      else
        match backoffLoop attempts remaining (attempt + 1) (delay * 2) (some msg) with
        | (r, ds) => (r, delay :: ds)

/-- Embedding of the `with_backoff(max_retries, base_delay)` wrapper applied
to an operation whose per-attempt outcomes are `attempts`. -/
def with_backoff {α : Type} (max_retries : Nat) (base_delay : ℚ)
    (attempts : Nat → Attempt α) : BackoffResult α × List ℚ :=
  backoffLoop attempts max_retries 0 base_delay none

/-- The sleep schedule `[d, 2d, 4d, ...]` of length `k`. -/
def doublingDelays (delay : ℚ) : Nat → List ℚ
  | 0 => []
  | k + 1 => delay :: doublingDelays (delay * 2) k

/-! Post records and the pagination loop (src/main.py lines 316-412) -/

/-- Fields read from one Instaloader post object. -/
structure RawPost where
  shortcode : String
  date : Int
  likes : Nat
  comments : Nat
  is_video : Bool
  video_view_count : Nat
  caption : String
  typename : String
  caption_mentions : List String
  tagged_users : List String
deriving DecidableEq

/-- The sponsorship keyword list `AD_KEYWORDS`. -/
def AD_KEYWORDS : List String := ["#ad", "#sponsored", "#collab", "paid partnership"]

/-- Mapping from GraphQL typename to the content-type tag. -/
def contentTypeOf (typename : String) : String :=
  if typename = "GraphImage" then "Photo"
  else if typename = "GraphVideo" then "Video/Reel"
  else if typename = "GraphSidecar" then "Carousel"
  else "Unknown"

/-- One entry of `posts_data`. -/
structure PostRecord where
  post_index : Nat
  shortcode : String
  date : Int
  likes : Nat
  comments : Nat
  is_video : Bool
  video_view_count : Nat
  caption : String
  hashtags : List String
  mentions : List String
  content_type : String
  is_brand_collab : Bool
deriving DecidableEq

/-- Building the `posts_data` entry for the post at enumerate index `i`
(post_index is 1-based). The mention set union is modelled as a
first-occurrence deduplicated list. -/
def mkPostRecord (i : Nat) (p : RawPost) : PostRecord :=
  { post_index := i + 1
    shortcode := p.shortcode
    date := p.date
    likes := p.likes
    comments := p.comments
    is_video := p.is_video
    video_view_count := if p.is_video then p.video_view_count else 0
    caption := p.caption
    hashtags := extract_hashtags p.caption
    mentions := (extract_mentions_from_caption p.caption ++ p.caption_mentions.map pyLower
      ++ p.tagged_users.map pyLower).eraseDups
    content_type := contentTypeOf p.typename
    is_brand_collab := AD_KEYWORDS.any (fun k => pyContains (pyLower p.caption) k) }

/-- Outcome of fetching/processing the next post during pagination. -/
inductive PostFetch where
  | ok (p : RawPost)
  | tooManyRequests
  | connectionError
  | otherError
deriving DecidableEq

/-- The pagination loop body: returns `(posts_data, total_requests,
failed_posts)`. A too-many-requests signal breaks out of the loop after
incrementing the failure counter; connection and other errors increment
it and continue with the next post. -/
def scrapeLoop (maxPosts : Nat) : List PostFetch → Nat → List PostRecord × Nat × Nat
  | [], _ => ([], 0, 0)
  | f :: fs, i =>
    if maxPosts ≤ i then ([], 0, 0)
    else
      match f with
      | .ok p =>
        match scrapeLoop maxPosts fs (i + 1) with
        | (ps, tr, fp) => (mkPostRecord i p :: ps, tr + 1, fp)
      | .tooManyRequests => ([], 0, 1)
      | .connectionError =>
        match scrapeLoop maxPosts fs (i + 1) with
        | (ps, tr, fp) => (ps, tr, fp + 1)
      | .otherError =>
        match scrapeLoop maxPosts fs (i + 1) with
        | (ps, tr, fp) => (ps, tr, fp + 1)

/-- Post scraping step of `analyze_profile` (enumerate starts at 0). -/
def scrapePosts (maxPosts : Nat) (stream : List PostFetch) :
    List PostRecord × Nat × Nat :=
  scrapeLoop maxPosts stream 0

/-! Metric computation (src/main.py lines 415-514) -/

/-- Profile-level fields read from the loaded Instaloader profile. -/
structure ProfileInfo where
  username : String
  full_name : String
  biography : String
  followers : Nat
  followees : Nat
  mediacount : Nat
  is_verified : Bool
deriving DecidableEq

/-- The `stats` dictionary of `analyze_profile`. -/
structure ProfileStats where
  username : String
  full_name : String
  bio : String
  followers : Nat
  following : Nat
  total_posts : Nat
  is_verified : Bool
  avg_likes : ℚ
  avg_comments : ℚ
  avg_views : ℚ
  engagement_rate : ℚ
  viral_percentage : ℚ
  posts_per_week : ℚ
  brand_collabs : Nat
  category : String
  location : String
deriving DecidableEq

/-- Arithmetic mean of a list, as pandas `Series.mean` on a non-empty
column. -/
def listMean (xs : List ℚ) : ℚ := xs.sum / (xs.length : ℚ)

/-- Python `(df.date.max() - df.date.min()).days` with dates as POSIX
seconds: the day span between the earliest and latest post date. -/
def dateRangeDays (posts : List PostRecord) : Int :=
  match posts.map (fun p => p.date) with
  | [] => 0
  | d :: ds => ((ds.foldl max d) - (ds.foldl min d)) / 86400

/-- Per-post engagement rate `(likes + comments) / followers * 100`. -/
def erPost (followers : Nat) (p : PostRecord) : ℚ :=
  ((p.likes : ℚ) + (p.comments : ℚ)) / (followers : ℚ) * 100

/-- Metric computation step of `analyze_profile` (section 3 of the
source): fills the averaged metrics of `stats` over the collected posts,
leaving category/location to the inference step. -/
def computeStats (profile : ProfileInfo) (posts : List PostRecord) : ProfileStats :=
  let base : ProfileStats :=
    { username := profile.username
      full_name := profile.full_name
      bio := profile.biography
      followers := profile.followers
      following := profile.followees
      total_posts := profile.mediacount
      is_verified := profile.is_verified
      avg_likes := 0
      avg_comments := 0
      avg_views := 0
      engagement_rate := 0
      viral_percentage := 0
      posts_per_week := 0
      brand_collabs := 0
      category := "Unknown"
      location := "Unknown" }
  if posts.isEmpty then base
  else
    let videos := posts.filter (fun p => p.is_video)
    let followers_count := profile.followers
    let engagement_rate :=
      if 0 < followers_count then listMean (posts.map (erPost followers_count)) else 0
    let viral_percentage :=
      if 0 < followers_count then
        if videos.isEmpty then 0
        else
          let avg_video_eng := listMean (videos.map (erPost followers_count))
          ((videos.filter (fun p => avg_video_eng * 3 < erPost followers_count p)).length : ℚ)
            / (videos.length : ℚ) * 100
      else 0
    let posts_per_week :=
      if 1 < posts.length then
        let d := dateRangeDays posts
        if 0 < d then (posts.length : ℚ) / ((d : ℚ) / 7) else 0
      else 0
    { base with
      avg_likes := listMean (posts.map (fun p => (p.likes : ℚ)))
      avg_comments := listMean (posts.map (fun p => (p.comments : ℚ)))
      avg_views :=
        if videos.isEmpty then 0
        else listMean (videos.map (fun p => (p.video_view_count : ℚ)))
      engagement_rate := engagement_rate
      viral_percentage := viral_percentage
      posts_per_week := posts_per_week
      brand_collabs := (posts.filter (fun p => p.is_brand_collab)).length }

/-! Follower / followee enumeration (src/main.py lines 519-549) -/

/-- One event yielded while iterating `profile.get_followers()` /
`get_followees()`: a username, or the exception that ends the
iteration. -/
inductive EnumEvent where
  | ok (username : String)
  | err
deriving DecidableEq

/-- The capped enumeration loop. An exception ends the loop (it is caught
outside it), keeping the names already appended; reaching the cap breaks
after the append. -/
def enumNamesAux (cap : Nat) : List EnumEvent → Nat → List String
  | [], _ => []
  | .err :: _, _ => []
  | .ok u :: rest, idx =>
    u :: (if cap ≤ idx + 1 then [] else enumNamesAux cap rest (idx + 1))

/-- Names collected by one follower/followee enumeration attempt. -/
def enumNames (cap : Nat) (events : List EnumEvent) : List String :=
  enumNamesAux cap events 0

/-! AI inference outcome (src/main.py lines 227-273) -/

/-- Outcome of the Gemini call: a parsed two-field result, or any of the
failure modes (missing key, quota exhaustion, error, empty response),
all of which fall back to the heuristic. -/
inductive AiOutcome where
  | ok (result : CategoryLocation)
  | failed
deriving DecidableEq

/-- Embedding of `infer_category_and_location`. -/
def infer_category_and_location (bio : String) (captions : List String)
    (gemini : AiOutcome) : CategoryLocation :=
  match gemini with
  | .ok r => r
  | .failed => heuristic_category_location bio captions

/-! Export step (src/main.py lines 575-651) -/

/-- The export artifacts, in the order they are written. -/
inductive Artifact where
  | postsCsv
  | postsLog
  | followersLog
  | followingLog
  | interactionsLog
  | profileCsv
  | profileJson
  | profileXlsx
deriving DecidableEq

/-- Artifact write order of the export section. -/
def artifactOrder : List Artifact :=
  [.postsCsv, .postsLog, .followersLog, .followingLog, .interactionsLog,
   .profileCsv, .profileJson, .profileXlsx]

/-- The export section, given which artifact writes would succeed.
`df.to_csv`, `profile_df.to_csv` and `profile_df.to_json` are not inside
a try/except in the source, so their failures propagate (`Except.error`);
the five other writes are individually wrapped and merely skipped on
failure. Returns the artifacts actually written. -/
def exportStep (writeOk : Artifact → Bool) : Except Artifact (List Artifact) :=
  if writeOk .postsCsv then
    let w1 := [Artifact.postsCsv]
    let w2 := if writeOk .postsLog then w1 ++ [Artifact.postsLog] else w1
    let w3 := if writeOk .followersLog then w2 ++ [Artifact.followersLog] else w2
    let w4 := if writeOk .followingLog then w3 ++ [Artifact.followingLog] else w3
    let w5 := if writeOk .interactionsLog then w4 ++ [Artifact.interactionsLog] else w4
    if writeOk .profileCsv then
      let w6 := w5 ++ [Artifact.profileCsv]
      if writeOk .profileJson then
        let w7 := w6 ++ [Artifact.profileJson]
        .ok (if writeOk .profileXlsx then w7 ++ [Artifact.profileXlsx] else w7)
      else .error .profileJson
    else .error .profileCsv
  else .error .postsCsv

/-- One JSONL line of the posts log. -/
def postJsonLine (p : PostRecord) : String :=
  "\x7b\"shortcode\": \"" ++ p.shortcode ++ "\", \"likes\": " ++ toString p.likes
    ++ ", \"comments\": " ++ toString p.comments ++ "\x7d"

/-- Lines of the posts JSONL log (one object per collected post). -/
def postsLogLines (posts : List PostRecord) : List String := posts.map postJsonLine

/-- One JSONL line of the followers/following logs. -/
def userJsonLine (u : String) : String := "\x7b\"username\": \"" ++ u ++ "\"\x7d"

/-- Lines of a followers/following JSONL log. -/
def followersLogLines (names : List String) : List String := names.map userJsonLine

/-- Data rows of the posts CSV table (one row per collected post). -/
def postsCsvRows (posts : List PostRecord) : List (List String) :=
  posts.map (fun p =>
    [toString p.post_index, p.shortcode, toString p.date, toString p.likes,
     toString p.comments, p.content_type])

/-! The analyzer pipeline (src/main.py lines 284-739) -/

/-- The external world one `analyze_profile` run interacts with. -/
structure ScrapeEnv where
  loadAttempts : Nat → Attempt ProfileInfo
  postStream : List PostFetch
  authUsername : Option String
  followerEvents : List EnumEvent
  followeeEvents : List EnumEvent
  gemini : AiOutcome
  writeOk : Artifact → Bool

/-- The claim-relevant fields of the `extra` dictionary. -/
structure ExtraInfo where
  posts_failed : Nat
  total_requests : Nat
  followers_list : List String
  following_list : List String
deriving DecidableEq

/-- How one `analyze_profile` call ends: with an uncaught exception from
an unprotected export write, with the empty-stats sentinel triple, or
with a completed `(stats, posts, extra)` triple. -/
inductive RunResult where
  | raised (a : Artifact)
  | emptyReturn
  | completed (stats : ProfileStats) (posts : List PostRecord) (extra : ExtraInfo)
deriving DecidableEq

/-- Embedding of `analyze_profile`: load the profile through the backoff
wrapper (3 attempts, base delay 2.0), scrape posts, compute metrics,
enumerate followers/followees only when authenticated, infer
category/location, then export. -/
def analyze_profile (env : ScrapeEnv) (doExport : Bool)
    (maxPosts maxFollowersFetch : Nat) : RunResult :=
  match (with_backoff 3 2 env.loadAttempts).1 with
  | .err _ => .emptyReturn
  | .fellThrough => .emptyReturn
  | .ok profile =>
    match scrapePosts maxPosts env.postStream with
    | (posts, total_requests, failed_posts) =>
      let stats0 := computeStats profile posts
      let followers_list :=
        match env.authUsername with
        | some _ => enumNames maxFollowersFetch env.followerEvents
        | none => []
      let following_list :=
        match env.authUsername with
        | some _ => enumNames maxFollowersFetch env.followeeEvents
        | none => []
      let ai_res := infer_category_and_location stats0.bio (posts.map (fun p => p.caption)) env.gemini
      let stats := { stats0 with category := ai_res.category, location := ai_res.location }
      let extra : ExtraInfo :=
        { posts_failed := failed_posts
          total_requests := total_requests
          followers_list := followers_list
          following_list := following_list }
      if doExport then
        match exportStep env.writeOk with
        | .error a => .raised a
        | .ok _ => .completed stats posts extra
      else .completed stats posts extra

/-! Helper lemmas -/

/-- Guarded `filterMap` is filter-then-map. -/
lemma filterMap_guard {α β : Type} (p : α → Bool) (f : α → β) (l : List α) :
    (l.filterMap fun a => if p a then some (f a) else none) = (l.filter p).map f := by
  induction l with
  | nil => rfl
  | cons a l ih =>
    by_cases h : p a = true
    · simp [List.filterMap_cons, List.filter_cons, h, ih]
    · simp [List.filterMap_cons, List.filter_cons, h, ih]

/-- Converting a valid scalar value to a character and back is the
identity. -/
lemma char_toNat_ofNat_valid (n : Nat) (h : n.isValidChar) : (Char.ofNat n).toNat = n := by
  unfold Char.ofNat
  rw [dif_pos h]
  rfl

/-- A character outside the uppercase ASCII range is fixed by
`Char.toLower`. -/
lemma toLower_not_upper (d : Char) (h : ¬(d.toNat ≥ 65 ∧ d.toNat ≤ 90)) :
    Char.toLower d = d := by
  unfold Char.toLower
  rw [if_neg h]

/-- `Char.toLower` is idempotent. -/
lemma toLower_idem (c : Char) : Char.toLower (Char.toLower c) = Char.toLower c := by
  by_cases h : c.toNat ≥ 65 ∧ c.toNat ≤ 90
  · have h2 : (Char.toLower c).toNat = c.toNat + 32 := by
      unfold Char.toLower
      rw [if_pos h]
      exact char_toNat_ofNat_valid _ (Or.inl (by omega))
    exact toLower_not_upper _ (by rw [h2]; omega)
  · rw [toLower_not_upper c h, toLower_not_upper c h]

/-- `pyLower` is idempotent. -/
lemma pyLower_idem (s : String) : pyLower (pyLower s) = pyLower s := by
  show String.mk (((s.data.map Char.toLower)).map Char.toLower) = String.mk (s.data.map Char.toLower)
  rw [List.map_map]
  congr 1
  exact List.map_congr_left fun c _ => toLower_idem c

/-! Claim theorems -/

/-- C7: the heuristic category/location fallback is a deterministic
function of bio and captions: first keyword-set match in source order
decides the category (unmatched gives "Unknown (heuristic)"), and the
first matching city in table iteration order decides the location. In
particular bio "Mumbai based fitness coach" with no captions gives
category "Fitness" and location "Mumbai, India"; a bio matching both the
poetry and the fitness buckets resolves to the earlier bucket; a text
containing both "pune" and "mumbai" resolves to "Mumbai, India" because
"mumbai" comes first in the table; an unmatched text falls back to
"Unknown (heuristic)" for both fields. -/
theorem heuristic_inference_deterministic :
    heuristic_category_location "Mumbai based fitness coach" [] =
      { category := "Fitness", location := "Mumbai, India" } ∧
    heuristic_category_location "poet and fitness coach" [] =
      { category := "Poetry / Writing", location := "Unknown (heuristic)" } ∧
    heuristic_category_location "visited pune then mumbai" [] =
      { category := "Unknown (heuristic)", location := "Mumbai, India" } ∧
    heuristic_category_location "" [] =
      { category := "Unknown (heuristic)", location := "Unknown (heuristic)" } :=
  ⟨by decide, by decide, by decide, by decide⟩

/-- C8: `extract_hashtags` splits on whitespace, keeps exactly the tokens
beginning with '#' that are longer than one character, strips the leading
'#' and lowercases each (duplicates and order preserved by the
filter-map); it never returns a token of length 0, and every returned
token is already normalized — lowercasing is idempotent on the output. -/
theorem extract_hashtags_normalized (caption : String) :
    extract_hashtags caption =
      ((pySplit caption).filter (fun w => startsWithHash w && decide (1 < pyLen w))).map
        (fun w => pyLower (pyDrop1 w)) ∧
    (∀ t, t ∈ extract_hashtags caption → pyLen t ≠ 0) ∧
    (∀ t, t ∈ extract_hashtags caption → pyLower t = t) := by
  have key : extract_hashtags caption =
      ((pySplit caption).filter (fun w => startsWithHash w && decide (1 < pyLen w))).map
        (fun w => pyLower (pyDrop1 w)) := by
    by_cases hc : caption = ""
    · subst hc; rfl
    · rw [extract_hashtags, if_neg hc]
      exact filterMap_guard _ _ _
  refine ⟨key, ?_, ?_⟩
  · intro t ht
    rw [key] at ht
    obtain ⟨w, hw, rfl⟩ := List.mem_map.1 ht
    have h2 := (List.mem_filter.1 hw).2
    have h3 : 1 < pyLen w := by
      simp only [Bool.and_eq_true, decide_eq_true_eq] at h2
      exact h2.2
    have h4 : pyLen (pyLower (pyDrop1 w)) = ((w.data.drop 1).map Char.toLower).length := rfl
    rw [h4, List.length_map, List.length_drop]
    have h5 : 1 < w.data.length := h3
    omega
  · intro t ht
    rw [key] at ht
    obtain ⟨w, hw, rfl⟩ := List.mem_map.1 ht
    exact pyLower_idem (pyDrop1 w)

/-- Witness for C8: a concrete caption with duplicate hashtags; the
returned token "teama" is nonempty and lowercase-stable. -/
theorem extract_hashtags_normalized_witness :
    extract_hashtags "Go #TeamA #TeamA run w/ #z # #" = ["teama", "teama", "z"] ∧
    pyLen "teama" ≠ 0 ∧ pyLower "teama" = "teama" :=
  ⟨by decide,
   (extract_hashtags_normalized "Go #TeamA #TeamA run w/ #z # #").2.1 "teama" (by decide),
   (extract_hashtags_normalized "Go #TeamA #TeamA run w/ #z # #").2.2 "teama" (by decide)⟩

/-- Helper: with at least one attempt remaining, the retry loop ignores
the last-error accumulator. -/
lemma backoffLoop_last_irrel {α : Type} (attempts : Nat → Attempt α) (r att : Nat)
    (d : ℚ) (l1 l2 : Option String) (h : r ≠ 0) :
    backoffLoop attempts r att d l1 = backoffLoop attempts r att d l2 := by
  cases r with
  | zero => exact absurd rfl h
  | succ n => rfl

/-- Helper: a run of `k` non-blocking failures advances the retry loop by
`k` attempts, sleeping the doubling delays, provided attempts remain. -/
lemma backoffLoop_skip {α : Type} (attempts : Nat → Attempt α) :
    ∀ (k r att : Nat) (d : ℚ) (l l2 : Option String),
      k < r →
      (∀ i, i < k → ∃ s, attempts (att + i) = .fail s ∧ isBlockedMsg s = false) →
      backoffLoop attempts r att d l =
        ((backoffLoop attempts (r - k) (att + k) (2 ^ k * d) l2).1,
         doublingDelays d k ++ (backoffLoop attempts (r - k) (att + k) (2 ^ k * d) l2).2)
  | 0, r, att, d, l, l2, hk, _ => by
    simp only [Nat.sub_zero, Nat.add_zero, pow_zero, one_mul, doublingDelays,
      List.nil_append]
    rw [backoffLoop_last_irrel attempts r att d l l2 (by omega)]
  | k + 1, r, att, d, l, l2, hk, hpre => by
    obtain ⟨s, hs, hb⟩ := hpre 0 (Nat.succ_pos k)
    rw [Nat.add_zero] at hs
    cases r with
    | zero => omega
    | succ r1 =>
      have hr1 : ¬ r1 = 0 := by omega
      have step : backoffLoop attempts (r1 + 1) att d l =
          ((backoffLoop attempts r1 (att + 1) (d * 2) (some s)).1,
           d :: (backoffLoop attempts r1 (att + 1) (d * 2) (some s)).2) := by
        simp [backoffLoop, hs, hb, hr1]
      have ih := backoffLoop_skip attempts k r1 (att + 1) (d * 2) (some s) l2
        (by omega)
        (fun i hi => by
          have := hpre (i + 1) (by omega)
          rwa [show att + (i + 1) = att + 1 + i from by omega] at this)
      rw [step, ih]
      have e1 : r1 - k = r1 + 1 - (k + 1) := by omega
      have e2 : att + 1 + k = att + (k + 1) := by omega
      have e3 : 2 ^ k * (d * 2) = 2 ^ (k + 1) * d := by ring
      rw [e1, e2, e3]
      simp [doublingDelays]

/-- C4: the backoff wrapper policy. If some attempt fails with the
temporary-block signal after only non-blocking failures, the wrapper
stops immediately (sleeping no further delays) and propagates that
failure; if all attempts fail without the block signal, it retries to the
attempt limit with doubling delays and propagates the final failure; if
an attempt succeeds after only non-blocking failures, its value is
returned. -/
theorem with_backoff_policy {α : Type} (attempts : Nat → Attempt α) (max_retries : Nat)
    (base_delay : ℚ) :
    (∀ k v, k < max_retries → attempts k = .ok v →
      (∀ i, i < k → ∃ s, attempts i = .fail s ∧ isBlockedMsg s = false) →
      with_backoff max_retries base_delay attempts = (.ok v, doublingDelays base_delay k)) ∧
    (∀ k msg, k < max_retries → attempts k = .fail msg → isBlockedMsg msg = true →
      (∀ i, i < k → ∃ s, attempts i = .fail s ∧ isBlockedMsg s = false) →
      with_backoff max_retries base_delay attempts = (.err msg, doublingDelays base_delay k)) ∧
    (∀ m : Nat → String, 1 ≤ max_retries →
      (∀ i, i < max_retries → attempts i = .fail (m i) ∧ isBlockedMsg (m i) = false) →
      with_backoff max_retries base_delay attempts =
        (.err (m (max_retries - 1)), doublingDelays base_delay (max_retries - 1))) := by
  refine ⟨?_, ?_, ?_⟩
  · intro k v hk hok hpre
    have hskip := backoffLoop_skip attempts k max_retries 0 base_delay none none hk
      (by simpa using hpre)
    rw [with_backoff, hskip]
    cases hmr : max_retries - k with
    | zero => omega
    | succ n => simp [backoffLoop, Nat.zero_add, hok]
  · intro k msg hk hfail hblock hpre
    have hskip := backoffLoop_skip attempts k max_retries 0 base_delay none none hk
      (by simpa using hpre)
    rw [with_backoff, hskip]
    cases hmr : max_retries - k with
    | zero => omega
    | succ n => simp [backoffLoop, Nat.zero_add, hfail, hblock]
  · intro m h1 hall
    have hpre : ∀ i, i < max_retries - 1 →
        ∃ s, attempts i = .fail s ∧ isBlockedMsg s = false :=
      fun i hi => ⟨m i, (hall i (by omega)).1, (hall i (by omega)).2⟩
    have hskip := backoffLoop_skip attempts (max_retries - 1) max_retries 0 base_delay
      none none (by omega) (by simpa using hpre)
    rw [with_backoff, hskip]
    have hmr : max_retries - (max_retries - 1) = 1 := by omega
    rw [hmr]
    have hlast := hall (max_retries - 1) (by omega)
    simp [backoffLoop, Nat.zero_add, hlast.1, hlast.2]

/-- Witness for C4: an operation that fails twice (non-blocking) and
succeeds on the third attempt, at the default configuration (3 attempts,
base delay 2.0): the value is returned after sleeping 2.0 then 4.0. -/
theorem with_backoff_policy_witness :
    with_backoff 3 2 (fun i => if i = 2 then Attempt.ok 42 else .fail "boom") =
      (.ok 42, doublingDelays 2 2) ∧
    doublingDelays (2 : ℚ) 2 = [2, 4] := by
  constructor
  · exact (with_backoff_policy (fun i => if i = 2 then Attempt.ok 42 else .fail "boom") 3 2).1
      2 42 (by omega) (by decide)
      (fun i hi => ⟨"boom", by interval_cases i <;> decide, by decide⟩)
  · norm_num [doublingDelays]

/-- Records produced by a run of successfully processed posts starting at
enumerate index `i`. -/
def expectedRecords (i : Nat) : List RawPost → List PostRecord
  | [] => []
  | p :: rest => mkPostRecord i p :: expectedRecords (i + 1) rest

/-- Helper: `expectedRecords` has one record per raw post. -/
lemma expectedRecords_length (goods : List RawPost) :
    ∀ i, (expectedRecords i goods).length = goods.length := by
  induction goods with
  | nil => intro i; rfl
  | cons p ps ih => intro i; simp [expectedRecords, ih]

/-- Helper: the pagination loop on a run of good posts followed by a
too-many-requests signal. -/
lemma scrapeLoop_rate_limited (goods : List RawPost) :
    ∀ (rest : List PostFetch) (maxPosts i : Nat), i + goods.length < maxPosts →
      scrapeLoop maxPosts (goods.map PostFetch.ok ++ PostFetch.tooManyRequests :: rest) i =
        (expectedRecords i goods, goods.length, 1) := by
  induction goods with
  | nil =>
    intro rest maxPosts i h
    simp only [List.length_nil, Nat.add_zero] at h
    simp [scrapeLoop, expectedRecords, show ¬ maxPosts ≤ i from by omega]
  | cons p ps ih =>
    intro rest maxPosts i h
    simp only [List.length_cons] at h
    have hi : ¬ maxPosts ≤ i := by omega
    have hrec := ih rest maxPosts (i + 1) (by omega)
    simp [scrapeLoop, hi, hrec, expectedRecords]

/-- C6: a "too many requests" signal during pagination stops collection
immediately, keeps every already-collected post and counts exactly one
failed post: if the first `k` posts are processed successfully (with
`k` below the pagination cap) and the next fetch raises the signal, the
loop returns exactly those `k` records, `total_requests = k` and
`failed_posts = 1`, whatever posts would have followed. -/
theorem pagination_rate_limit_stop (goods : List RawPost) (rest : List PostFetch)
    (maxPosts : Nat) (h : goods.length < maxPosts) :
    scrapePosts maxPosts (goods.map PostFetch.ok ++ PostFetch.tooManyRequests :: rest) =
      (expectedRecords 0 goods, goods.length, 1) ∧
    (expectedRecords 0 goods).length = goods.length := by
  constructor
  · exact scrapeLoop_rate_limited goods rest maxPosts 0 (by omega)
  · exact expectedRecords_length goods 0

/-- A placeholder raw post used by the concrete scenarios. -/
def demoRaw (j : Nat) : RawPost :=
  { shortcode := toString j
    date := (j : Int) * 86400
    likes := 10
    comments := 1
    is_video := false
    video_view_count := 0
    caption := ""
    typename := "GraphImage"
    caption_mentions := []
    tagged_users := [] }

/-- The four posts processed before the rate-limit signal. -/
def demoGoods : List RawPost := [demoRaw 0, demoRaw 1, demoRaw 2, demoRaw 3]

/-- The five posts that would have followed the signal (posts 6-10 of the
mocked 10-post stream). -/
def demoTail : List PostFetch :=
  [.ok (demoRaw 5), .ok (demoRaw 6), .ok (demoRaw 7), .ok (demoRaw 8), .ok (demoRaw 9)]

/-- Witness for C6: the mocked 10-post stream whose 5th fetch raises
"too many requests" yields exactly 4 collected posts, total_requests 4
and failed_posts 1, under the default cap of 30. -/
theorem pagination_rate_limit_stop_witness :
    (scrapePosts 30 (demoGoods.map PostFetch.ok ++ PostFetch.tooManyRequests :: demoTail)).1.length = 4 ∧
    (scrapePosts 30 (demoGoods.map PostFetch.ok ++ PostFetch.tooManyRequests :: demoTail)).2.1 = 4 ∧
    (scrapePosts 30 (demoGoods.map PostFetch.ok ++ PostFetch.tooManyRequests :: demoTail)).2.2 = 1 := by
  have h := pagination_rate_limit_stop demoGoods demoTail 30 (by decide)
  rw [h.1]
  refine ⟨?_, rfl, rfl⟩
  rw [h.2]
  rfl

/-- Helper: the pagination loop counts one successful fetch per record it
keeps. -/
lemma scrapeLoop_total_requests (stream : List PostFetch) :
    ∀ (maxPosts i : Nat),
      (scrapeLoop maxPosts stream i).2.1 = (scrapeLoop maxPosts stream i).1.length := by
  induction stream with
  | nil => intro maxPosts i; rfl
  | cons f fs ih =>
    intro maxPosts i
    by_cases h : maxPosts ≤ i
    · simp [scrapeLoop, h]
    · rcases hrec : scrapeLoop maxPosts fs (i + 1) with ⟨ps, tr, fp⟩
      have ht := ih maxPosts (i + 1)
      rw [hrec] at ht
      simp only at ht
      cases f <;> simp [scrapeLoop, h, hrec, ht]

/-- C10: in every completed `analyze_profile` run, the returned
`total_requests` aggregate equals the number of post records collected —
failed, skipped or rate-limit-stopped posts are never counted. -/
theorem total_requests_counts_collected (env : ScrapeEnv) (doExport : Bool)
    (maxPosts maxFollowersFetch : Nat) (stats : ProfileStats) (posts : List PostRecord)
    (extra : ExtraInfo)
    (h : analyze_profile env doExport maxPosts maxFollowersFetch =
      .completed stats posts extra) :
    extra.total_requests = posts.length := by
  unfold analyze_profile at h
  cases hb : (with_backoff 3 2 env.loadAttempts).1 with
  | err m => rw [hb] at h; simp at h
  | fellThrough => rw [hb] at h; simp at h
  | ok profile =>
    rw [hb] at h
    have ht : (scrapePosts maxPosts env.postStream).2.1 =
        (scrapePosts maxPosts env.postStream).1.length :=
      scrapeLoop_total_requests env.postStream maxPosts 0
    rcases hsp : scrapePosts maxPosts env.postStream with ⟨ps, tr, fp⟩
    rw [hsp] at ht h
    simp only at ht
    cases doExport with
    | false =>
      simp only [if_neg (by simp : ¬ (false = true))] at h
      rw [RunResult.completed.injEq] at h
      obtain ⟨h1, h2, h3⟩ := h
      rw [← h3, ← h2]
      exact ht
    | true =>
      cases hex : exportStep env.writeOk with
      | error a => rw [hex] at h; simp at h
      | ok l =>
        rw [hex] at h
        simp at h
        obtain ⟨h1, h2, h3⟩ := h
        subst h2
        subst h3
        exact ht

/-- A profile record used by the concrete scenarios. -/
def demoProfile : ProfileInfo :=
  { username := "demo"
    full_name := "Demo User"
    biography := ""
    followers := 100
    followees := 10
    mediacount := 3
    is_verified := false }

/-- Environment for the C10 witness: profile load succeeds, the stream
holds two good posts around one failing post, no auth, no export. -/
def envTotals : ScrapeEnv :=
  { loadAttempts := fun _ => .ok demoProfile
    postStream := [.ok (demoRaw 0), .otherError, .ok (demoRaw 2)]
    authUsername := none
    followerEvents := []
    followeeEvents := []
    gemini := .ok { category := "X", location := "Y" }
    writeOk := fun _ => true }

/-- Witness for C10: on a concrete completed run with one skipped post,
total_requests (= 2) equals the number of collected records. -/
theorem total_requests_counts_collected_witness :
    (2 : Nat) = [mkPostRecord 0 (demoRaw 0), mkPostRecord 2 (demoRaw 2)].length :=
  total_requests_counts_collected envTotals false 30 500
    { computeStats demoProfile [mkPostRecord 0 (demoRaw 0), mkPostRecord 2 (demoRaw 2)] with
        category := "X", location := "Y" }
    [mkPostRecord 0 (demoRaw 0), mkPostRecord 2 (demoRaw 2)]
    { posts_failed := 1, total_requests := 2, followers_list := [], following_list := [] }
    rfl

/-- C5: for non-empty post sets, avg_likes and avg_comments are the
arithmetic means of the per-post like and comment counts; with a positive
follower count the engagement rate is the mean over all posts of
`(likes + comments) / followers * 100`; with follower count 0 it is
exactly 0, taken from the no-division branch. -/
theorem engagement_metric_means (profile : ProfileInfo) (posts : List PostRecord)
    (hne : posts ≠ []) :
    (computeStats profile posts).avg_likes = listMean (posts.map (fun p => (p.likes : ℚ))) ∧
    (computeStats profile posts).avg_comments = listMean (posts.map (fun p => (p.comments : ℚ))) ∧
    (0 < profile.followers →
      (computeStats profile posts).engagement_rate =
        listMean (posts.map (erPost profile.followers))) ∧
    (profile.followers = 0 → (computeStats profile posts).engagement_rate = 0) := by
  have hE : posts.isEmpty = false := by
    cases posts with
    | nil => exact absurd rfl hne
    | cons a l => rfl
  refine ⟨?_, ?_, ?_, ?_⟩
  · simp [computeStats, hE]
  · simp [computeStats, hE]
  · intro h
    simp [computeStats, hE, h]
  · intro h
    simp [computeStats, hE, h]

/-- A minimal collected post record with the given index, likes, comments
and date. -/
def mkSimplePost (idx likes comments : Nat) (date : Int) : PostRecord :=
  { post_index := idx
    shortcode := ""
    date := date
    likes := likes
    comments := comments
    is_video := false
    video_view_count := 0
    caption := ""
    hashtags := []
    mentions := []
    content_type := "Photo"
    is_brand_collab := false }

/-- The mocked 3-post collection: likes 10/20/30, comments 1/2/3,
dates spanning two days. -/
def demoPosts : List PostRecord :=
  [mkSimplePost 1 10 1 0, mkSimplePost 2 20 2 86400, mkSimplePost 3 30 3 172800]

/-- Witness for C5: the mocked profile (followers = 100) with the 3-post
collection gives avg_likes 20, avg_comments 2 and engagement rate 22. -/
theorem engagement_metric_means_witness :
    (computeStats demoProfile demoPosts).avg_likes = 20 ∧
    (computeStats demoProfile demoPosts).avg_comments = 2 ∧
    (computeStats demoProfile demoPosts).engagement_rate = 22 := by
  obtain ⟨h1, h2, h3, _⟩ := engagement_metric_means demoProfile demoPosts (by decide)
  refine ⟨?_, ?_, ?_⟩
  · rw [h1]
    norm_num [demoPosts, mkSimplePost, listMean]
  · rw [h2]
    norm_num [demoPosts, mkSimplePost, listMean]
  · rw [h3 (by norm_num [demoProfile])]
    norm_num [demoPosts, demoProfile, mkSimplePost, listMean, erPost]

/-- C9: posting cadence is 0 whenever fewer than 2 posts were collected
or the day span between the earliest and latest post dates is not
positive (in particular when the earliest date equals the latest date),
and otherwise equals the post count divided by (the day span divided
by 7). -/
theorem posting_cadence_formula (profile : ProfileInfo) (posts : List PostRecord) :
    (posts.length < 2 → (computeStats profile posts).posts_per_week = 0) ∧
    (dateRangeDays posts ≤ 0 → (computeStats profile posts).posts_per_week = 0) ∧
    (2 ≤ posts.length → 0 < dateRangeDays posts →
      (computeStats profile posts).posts_per_week =
        (posts.length : ℚ) / ((dateRangeDays posts : ℚ) / 7)) := by
  have key : ∀ a (l : List PostRecord),
      (computeStats profile (a :: l)).posts_per_week =
        if 1 < (a :: l).length then
          if 0 < dateRangeDays (a :: l) then
            ((a :: l).length : ℚ) / ((dateRangeDays (a :: l) : ℚ) / 7)
          else 0
        else 0 := by
    intro a l
    rfl
  refine ⟨?_, ?_, ?_⟩
  · intro h
    cases posts with
    | nil => rfl
    | cons a l =>
      rw [key a l, if_neg ?_]
      simp only [List.length_cons] at h ⊢
      omega
  · intro h
    cases posts with
    | nil => rfl
    | cons a l =>
      rw [key a l]
      by_cases h2 : 1 < (a :: l).length
      · rw [if_pos h2, if_neg (by omega)]
      · rw [if_neg h2]
  · intro h1 h2
    cases posts with
    | nil => simp at h1
    | cons a l =>
      rw [key a l, if_pos (by omega), if_pos h2]

/-- Witness for C9: the 3-post collection spanning 2 days has cadence
3 / (2/7) = 10.5 posts per week; the first conjuncts are exercised on a
single post and on two same-date posts. -/
theorem posting_cadence_formula_witness :
    (computeStats demoProfile [mkSimplePost 1 5 0 0]).posts_per_week = 0 ∧
    (computeStats demoProfile [mkSimplePost 1 5 0 7, mkSimplePost 2 6 0 7]).posts_per_week = 0 ∧
    (computeStats demoProfile demoPosts).posts_per_week = 21 / 2 := by
  refine ⟨?_, ?_, ?_⟩
  · exact (posting_cadence_formula demoProfile [mkSimplePost 1 5 0 0]).1 (by decide)
  · exact (posting_cadence_formula demoProfile
      [mkSimplePost 1 5 0 7, mkSimplePost 2 6 0 7]).2.1 (by decide)
  · have h := (posting_cadence_formula demoProfile demoPosts).2.2 (by decide) (by decide)
    rw [h]
    have hd : dateRangeDays demoPosts = 2 := by decide
    rw [hd]
    norm_num [demoPosts]

/-- Counterexample for C1: the posts-table write (`df.to_csv`) and the
profile-summary CSV write (`profile_df.to_csv`) are not inside a
try/except, so a failure writing either single artifact propagates and
aborts the remaining exports. -/
theorem export_unprotected_write_aborts :
    exportStep (fun a => !(a == Artifact.postsCsv)) = .error .postsCsv ∧
    exportStep (fun a => !(a == Artifact.profileCsv)) = .error .profileCsv :=
  ⟨rfl, rfl⟩

/-- C1 (amended): a failure writing any of the five individually wrapped
artifacts (posts log, followers log, following log, interactions summary,
profile Excel) is caught and only skips that artifact, and the whole
export step completes without raising whenever the three unprotected
writes (posts table, profile CSV, profile JSON) succeed — in particular
when every write succeeds — and with an empty collected post set and
empty follower samples the written posts table and the logs have zero
data rows/lines. -/
theorem export_step_policy :
    (∀ writeOk : Artifact → Bool, writeOk .postsCsv = true → writeOk .profileCsv = true →
      writeOk .profileJson = true →
      exportStep writeOk = .ok (artifactOrder.filter writeOk)) ∧
    exportStep (fun _ => true) = .ok artifactOrder ∧
    postsLogLines [] = [] ∧ followersLogLines [] = [] ∧ postsCsvRows [] = [] := by
  refine ⟨?_, rfl, rfl, rfl, rfl⟩
  intro wOk h1 h2 h3
  cases h4 : wOk .postsLog <;> cases h5 : wOk .followersLog <;> cases h6 : wOk .followingLog <;>
    cases h7 : wOk .interactionsLog <;> cases h8 : wOk .profileXlsx <;>
      simp [exportStep, artifactOrder, h1, h2, h3, h4, h5, h6, h7, h8]

/-- Witness for C1 (amended): with only the posts-log write failing, the
export step still completes, writing the seven other artifacts. -/
theorem export_step_policy_witness :
    ((fun a => !(a == Artifact.postsLog)) Artifact.postsCsv = true) ∧
    exportStep (fun a => !(a == Artifact.postsLog)) =
      .ok [Artifact.postsCsv, .followersLog, .followingLog, .interactionsLog,
        .profileCsv, .profileJson, .profileXlsx] := by
  constructor
  · rfl
  · have h := export_step_policy.1 (fun a => !(a == Artifact.postsLog)) rfl rfl rfl
    rw [h]
    rfl

/-- C2 (amended): when loading the profile fails after the fetch
wrapper's retry policy, `analyze_profile` aborts and returns the
empty-stats sentinel rather than raising, producing no partial
profile-level result. -/
theorem load_failure_returns_empty (env : ScrapeEnv) (doExport : Bool)
    (maxPosts maxFollowersFetch : Nat) (msg : String)
    (h : (with_backoff 3 2 env.loadAttempts).1 = .err msg) :
    analyze_profile env doExport maxPosts maxFollowersFetch = .emptyReturn := by
  unfold analyze_profile
  rw [h]

/-- Environment whose profile load fails on every attempt. -/
def envLoadFail : ScrapeEnv :=
  { loadAttempts := fun _ => .fail "404 not found"
    postStream := [.ok (demoRaw 0)]
    authUsername := none
    followerEvents := []
    followeeEvents := []
    gemini := .failed
    writeOk := fun _ => true }

/-- Witness for C2 (amended): a load that fails all three attempts makes
the run return the sentinel. -/
theorem load_failure_returns_empty_witness :
    (with_backoff 3 2 envLoadFail.loadAttempts).1 = .err "404 not found" ∧
    analyze_profile envLoadFail true 30 500 = .emptyReturn :=
  ⟨rfl, load_failure_returns_empty envLoadFail true 30 500 "404 not found" rfl⟩

/-- Environment where the profile load succeeds but the unprotected
posts-table write fails. -/
def envExportFail : ScrapeEnv :=
  { loadAttempts := fun _ => .ok demoProfile
    postStream := []
    authUsername := none
    followerEvents := []
    followeeEvents := []
    gemini := .ok { category := "X", location := "Y" }
    writeOk := fun a => !(a == Artifact.postsCsv) }

/-- Counterexample for C2: with export requested and the posts-table
write failing, `analyze_profile` raises out of the analyzer, so the
empty-stats sentinel is not the sole failure signal crossing the
analyzer boundary. -/
theorem export_write_failure_raises :
    analyze_profile envExportFail true 30 500 = .raised .postsCsv ∧
    RunResult.raised .postsCsv ≠ .emptyReturn :=
  ⟨rfl, by decide⟩

/-- Projection: the follower/following sample lists of a completed run. -/
def runFollowers : RunResult → Option (List String × List String)
  | .completed _ _ e => some (e.followers_list, e.following_list)
  | _ => none

/-- Helper: the capped enumeration loop never collects more names than
the cap allows. -/
lemma enumNamesAux_length (cap : Nat) :
    ∀ (events : List EnumEvent) (idx : Nat), idx < cap →
      (enumNamesAux cap events idx).length ≤ cap - idx := by
  intro events
  induction events with
  | nil => intro idx h; simp [enumNamesAux]
  | cons e rest ih =>
    intro idx h
    cases e with
    | err => simp [enumNamesAux]
    | ok u =>
      simp only [enumNamesAux]
      by_cases h2 : cap ≤ idx + 1
      · rw [if_pos h2]
        simp only [List.length_cons, List.length_nil]
        omega
      · rw [if_neg h2]
        simp only [List.length_cons]
        have := ih (idx + 1) (by omega)
        omega

/-- Helper: when the enumeration raises after a run of successful
events, the names appended before the failure are kept (truncated at the
cap). -/
lemma enumNamesAux_partial (cap : Nat) :
    ∀ (names : List String) (rest : List EnumEvent) (idx : Nat), idx < cap →
      enumNamesAux cap (names.map EnumEvent.ok ++ EnumEvent.err :: rest) idx =
        names.take (cap - idx) := by
  intro names
  induction names with
  | nil => intro rest idx h; simp [enumNamesAux]
  | cons u us ih =>
    intro rest idx h
    show (u :: if cap ≤ idx + 1 then []
        else enumNamesAux cap (us.map EnumEvent.ok ++ EnumEvent.err :: rest) (idx + 1)) =
      List.take (cap - idx) (u :: us)
    by_cases h2 : cap ≤ idx + 1
    · rw [if_pos h2]
      have h3 : cap - idx = 1 := by omega
      rw [h3]
      simp
    · rw [if_neg h2, ih rest (idx + 1) (by omega)]
      have h3 : cap - idx = (cap - (idx + 1)) + 1 := by omega
      rw [h3]
      simp

/-- C3 (amended): with an unauthenticated session, follower/followee
enumeration is not attempted and both sample lists are empty; with an
authenticated session both enumerations are attempted and capped at the
configured maximum (default 500), and an enumeration failure ends that
enumeration while keeping the names collected before the failure (empty
only when the failure precedes the first name) without aborting the
run. -/
theorem follower_enumeration_policy (env : ScrapeEnv) (maxPosts maxFollowersFetch : Nat)
    (profile : ProfileInfo)
    (hload : (with_backoff 3 2 env.loadAttempts).1 = .ok profile) :
    (env.authUsername = none →
      runFollowers (analyze_profile env false maxPosts maxFollowersFetch) = some ([], [])) ∧
    (∀ u, env.authUsername = some u →
      runFollowers (analyze_profile env false maxPosts maxFollowersFetch) =
        some (enumNames maxFollowersFetch env.followerEvents,
          enumNames maxFollowersFetch env.followeeEvents)) ∧
    (∀ events, 1 ≤ maxFollowersFetch →
      (enumNames maxFollowersFetch events).length ≤ maxFollowersFetch) ∧
    (∀ (names : List String) (rest : List EnumEvent), 1 ≤ maxFollowersFetch →
      enumNames maxFollowersFetch (names.map EnumEvent.ok ++ EnumEvent.err :: rest) =
        names.take maxFollowersFetch) := by
  refine ⟨?_, ?_, ?_, ?_⟩
  · intro hu
    unfold analyze_profile
    rw [hload]
    rcases hsp : scrapePosts maxPosts env.postStream with ⟨ps, tr, fp⟩
    rw [hu]
    simp [runFollowers]
  · intro u hu
    unfold analyze_profile
    rw [hload]
    rcases hsp : scrapePosts maxPosts env.postStream with ⟨ps, tr, fp⟩
    rw [hu]
    simp [runFollowers]
  · intro events h
    have := enumNamesAux_length maxFollowersFetch events 0 (by omega)
    simpa [enumNames] using this
  · intro names rest h
    have := enumNamesAux_partial maxFollowersFetch names rest 0 (by omega)
    simpa [enumNames] using this

/-- Environment with an authenticated session whose follower enumeration
fails after yielding two names and whose followee enumeration fails
immediately. -/
def envPartialFollowers : ScrapeEnv :=
  { loadAttempts := fun _ => .ok demoProfile
    postStream := []
    authUsername := some "me"
    followerEvents := [.ok "a", .ok "b", .err]
    followeeEvents := [.err]
    gemini := .ok { category := "X", location := "Y" }
    writeOk := fun _ => true }

/-- Counterexample for C3: an enumeration failure does not degrade the
followers list to empty — the two names collected before the failure are
kept in the completed run's aggregates. -/
theorem partial_followers_kept_on_failure :
    runFollowers (analyze_profile envPartialFollowers false 30 500) = some (["a", "b"], []) ∧
    (["a", "b"] : List String) ≠ [] :=
  ⟨rfl, by decide⟩

/-- Witness for C3 (amended): the concrete authenticated run exposes the
enumerated lists, and the prefix-keeping equation instantiates at the
two-name stream. -/
theorem follower_enumeration_policy_witness :
    runFollowers (analyze_profile envPartialFollowers false 30 500) =
      some (enumNames 500 envPartialFollowers.followerEvents,
        enumNames 500 envPartialFollowers.followeeEvents) ∧
    enumNames 500 ((["a", "b"] : List String).map EnumEvent.ok ++ EnumEvent.err :: []) =
      (["a", "b"] : List String).take 500 := by
  have h := follower_enumeration_policy envPartialFollowers 30 500 demoProfile rfl
  exact ⟨h.2.1 "me" rfl, h.2.2.2 ["a", "b"] [] (by omega)⟩
